import Mathlib

/-
Verification of the connection-hook program in src/handle.py.

The program is embedded shallowly:
  - `NodeDatabase.get_node_info` becomes a pure function over the parsed
    content of the lookup file; the result of opening/reading the file is an
    explicit `Except String` argument (`Except.error e` models an OSError with
    message `e`), and the exceptions that Python's `int(...)` (ValueError) and
    `line[1..3]` (IndexError) can raise inside the scan loop are modeled as
    `Except.error` values of the inner scan, caught by the function-level
    handler exactly where the source's `try/except` sits.
  - `PushoverNotifier.send` becomes a pure function from the configuration,
    the transport outcome (an `Except String Nat`: response status, or the
    message of a raised exception) and the message, to the list of attempted
    network posts together with the log lines it emits.
  - `NodeMonitor.handle_connection_status` becomes a function producing the
    ordered trace of externally visible effects (`os.system` invocations,
    directory lookups, calls to `notifier.send`). Its result type is
    `Except String (List Effect)` so that "the processor never raises" is a
    statement about the function's results.
  - `datetime.now().strftime` is an input (`Env.timeStr`).
All string handling is done over `List Char` by structural recursion so that
every definition reduces inside the kernel.
-/

namespace AslHooks

/-- Emoji marker used by the source for a connect event. -/
def EMOJI_CONNECTED : String := "🔌"

/-- Emoji marker used by the source for a disconnect event. -/
def EMOJI_DISCONNECTED : String := "❌"

/-- Emoji marker used by the source for a blocked-node event. -/
def EMOJI_BLOCKED : String := "🚫"

/-- Node classification lists (dataclass `NodeConfig` in the source). -/
structure NodeConfig where
  my_nodes : List Int
  private_nodes : List Int
  blocked_nodes : List Int
  echolink : Option Int
deriving Repr, DecidableEq

/-- Pushover settings (dataclass `PushoverConfig` in the source). -/
structure PushoverConfig where
  enabled : Bool
  api_token : String
  user_key : String
deriving Repr, DecidableEq

/-- Accumulate the value of a decimal digit string, most significant first. -/
def digitsToNat : List Char → Nat → Nat
  | [], acc => acc
  | c :: rest, acc => digitsToNat rest (acc * 10 + (c.toNat - 48))

/-- Value of a nonempty all-digit character list, `none` otherwise. -/
def digitsOnly (cs : List Char) : Option Nat :=
  if !cs.isEmpty && cs.all Char.isDigit then some (digitsToNat cs 0) else none

/-- Model of Python `int(s)` on a character list: strip surrounding
whitespace, allow one leading sign, then require a nonempty run of decimal
digits; `none` models the ValueError `int` raises otherwise. (Python also
accepts underscore digit grouping and non-ASCII Unicode digits; no input in
this development uses either.) -/
def pyIntChars (cs : List Char) : Option Int :=
  let t := ((cs.dropWhile Char.isWhitespace).reverse.dropWhile Char.isWhitespace).reverse
  match t with
  | [] => none
  | c :: rest =>
    if c == '-' then (digitsOnly rest).map (fun n => -(n : Int))
    else if c == '+' then (digitsOnly rest).map Int.ofNat
    else (digitsOnly (c :: rest)).map Int.ofNat

/-- Model of Python `int(s)` on a string. -/
def pyIntOfString (s : String) : Option Int := pyIntChars s.data

/-- Split a character list at each occurrence of the delimiter. -/
def splitFieldsAux (delim : Char) : List Char → List Char → List (List Char)
  | [], acc => [acc.reverse]
  | c :: rest, acc =>
    if c == delim then acc.reverse :: splitFieldsAux delim rest []
    else splitFieldsAux delim rest (c :: acc)

/-- Model of one `csv.reader` row (delimiter-separated fields) for a line that
contains no quote character; the source configures `csv.reader` with
`delimiter='|'` and `quotechar="'"`, and every line considered in this
development is quote-free, where the reader reduces to plain splitting. -/
def parse_line (delim : Char) (line : String) : List String :=
  (splitFieldsAux delim line.data []).map String.mk

/-- Model of Python `s.startswith(c)` for a single-character prefix. -/
def startsWithChar (s : String) (c : Char) : Bool :=
  match s.data with
  | [] => false
  | d :: _ => d == c

/-- The scan loop of `NodeDatabase.get_node_info` over the parsed rows of the
lookup file. A blank row, or a row whose first field starts with `;`, is
skipped. Otherwise `int(line[0])` is attempted: failure is the ValueError the
source's function-level handler will catch, modeled as `Except.error`. On a
match, fields 1..3 are formatted; a matching row with fewer than 4 fields is
the IndexError case, also an `Except.error`. -/
def scan_rows (node_number : Int) : List (List String) → Except String String
  | [] => Except.ok "(unknown)"
  | line :: rest =>
    if line.isEmpty || startsWithChar (line.headD "") ';' then
      scan_rows node_number rest
    else
      match pyIntOfString (line.headD "") with
      | none => Except.error "ValueError"
      | some k =>
        if node_number = k then
          match line with
          | _ :: f1 :: f2 :: f3 :: _ =>
            Except.ok ("(" ++ f1 ++ " " ++ f2 ++ " in " ++ f3 ++ ")")
          | _ => Except.error "IndexError"
        else scan_rows node_number rest

/-- Model of `NodeDatabase.get_node_info` including its `try/except`:
`dbOpen` is the outcome of opening and reading the file
(`Except.error e` models an exception with message `e` raised by `open`);
any exception escaping the open or the scan loop is caught here, logged, and
turned into the `"(error reading db)"` placeholder. Returns the result string
together with the list of emitted log lines. -/
def get_node_info_run (dbOpen : Except String (List (List String)))
    (node_number : Int) : String × List String :=
  match dbOpen.bind (scan_rows node_number) with
  | Except.ok s => (s, [])
  | Except.error e => ("(error reading db)", ["Error reading node database: " ++ e])

/-- Result string of `NodeDatabase.get_node_info`. -/
def get_node_info (dbOpen : Except String (List (List String)))
    (node_number : Int) : String :=
  (get_node_info_run dbOpen node_number).1

/-- An attempted outbound network request. -/
inductive NetEffect
  | post (host path : String) (body : List (String × String))
deriving Repr, DecidableEq

/-- Model of `PushoverNotifier.send`: if disabled, return at once with no
network activity; otherwise attempt one HTTPS POST to the fixed endpoint with
the token/user/message form body. `net` is the transport outcome
(`Except.ok status` for a response, `Except.error e` for a raised exception);
the source's `try/except` swallows the failure, so both arms return normally
and differ only in the log line. Returns the attempted posts and the logs. -/
def PushoverNotifier.send (config : PushoverConfig) (net : Except String Nat)
    (message : String) : List NetEffect × List String :=
  if !config.enabled then ([], [])
  else
    let attempt := [NetEffect.post "api.pushover.net:443" "/1/messages.json"
      [("token", config.api_token), ("user", config.user_key), ("message", message)]]
    match net with
    | Except.ok status =>
      (attempt, ["Sending Pushover notification: " ++ message,
                 "Pushover response status: " ++ toString status])
    | Except.error e =>
      (attempt, ["Sending Pushover notification: " ++ message,
                 "Failed to send Pushover notification: " ++ e])

/-- Externally visible effects of the processor, in execution order:
an `os.system` invocation, a directory lookup, or a call to
`notifier.send` with the composed message. -/
inductive Effect
  | system (cmd : String)
  | lookup (node : Int)
  | send (message : String)
deriving Repr, DecidableEq

/-- Whether an effect is a call to `notifier.send`. -/
def Effect.isSend : Effect → Bool
  | .send _ => true
  | _ => false

/-- Whether an effect is an `os.system` invocation. -/
def Effect.isSystem : Effect → Bool
  | .system _ => true
  | _ => false

/-- Whether an effect is a directory lookup. -/
def Effect.isLookup : Effect → Bool
  | .lookup _ => true
  | _ => false

/-- Messages passed to `notifier.send` along a processor run. -/
def sent_messages : Except String (List Effect) → List String
  | Except.error _ => []
  | Except.ok tr => tr.filterMap (fun e => match e with
      | Effect.send m => some m
      | _ => none)

/-- Runtime environment of one invocation: the outcome of opening the lookup
file, and the wall-clock time already formatted as `HH:MM:SS` by
`datetime.now().strftime`. -/
structure Env where
  dbOpen : Except String (List (List String))
  timeStr : String
deriving Repr

/-- The control command of `handle_blocked_node`:
`asterisk -rx "rpt fun {my_node} *1{their_node}"`. -/
def blocked_cmd (my_node their_node : Int) : String :=
  "asterisk -rx \"rpt fun " ++ toString my_node ++ " *1" ++ toString their_node ++ "\""

/-- The status message composed by `handle_blocked_node`. -/
def blocked_status (env : Env) (my_node their_node : Int) : String :=
  EMOJI_BLOCKED ++ " Blocked node " ++ toString their_node ++ " " ++
    get_node_info env.dbOpen their_node ++ " was auto disconnected from " ++
    toString my_node ++ " " ++ get_node_info env.dbOpen my_node ++ " at " ++
    env.timeStr

/-- Model of `NodeMonitor.handle_blocked_node`: run the control command, then
compose the blocked status message (looking up the remote node, then the
local node) and hand it to the notifier. -/
def handle_blocked_node (env : Env) (my_node their_node : Int) : List Effect :=
  [Effect.system (blocked_cmd my_node their_node),
   Effect.lookup their_node, Effect.lookup my_node,
   Effect.send (blocked_status env my_node their_node)]

/-- The local-node display of the normal path: the fixed Echolink label when
`my_node == config.nodes.echolink` (no lookup), otherwise the node number
followed by its directory lookup. Returns the display string together with
the lookup effects performed to build it. -/
def handle_target (cfg : NodeConfig) (env : Env) (my_node : Int) :
    String × List Effect :=
  if cfg.echolink = some my_node then
    ("Echolink (" ++ toString my_node ++ ")", [])
  else
    (toString my_node ++ " " ++ get_node_info env.dbOpen my_node,
     [Effect.lookup my_node])

/-- The status message composed on the normal path. -/
def normal_status (env : Env) (emoji : String) (their_node : Int)
    (action target : String) : String :=
  emoji ++ " Node " ++ toString their_node ++ " " ++
    get_node_info env.dbOpen their_node ++ " " ++ action ++ " " ++ target ++
    " at " ++ env.timeStr

/-- Model of `NodeMonitor.handle_connection_status`. First the blocked check,
then the suppression check on the remote node's membership in
`my_nodes`/`private_nodes`, then the normal path: pick emoji and action from
`conn_status == 1`, build the local-node display, compose the message (the
remote-node lookup happens while composing) and hand it to the notifier. The
`Except` result type records whether the body raised: every branch of the
source returns normally, all fallible callees catching internally. -/
def handle_connection_status (cfg : NodeConfig) (env : Env)
    (conn_status my_node their_node : Int) : Except String (List Effect) :=
  if their_node ∈ cfg.blocked_nodes then
    Except.ok (handle_blocked_node env my_node their_node)
  else if their_node ∈ cfg.my_nodes ∨ their_node ∈ cfg.private_nodes then
    Except.ok []
  else
    let emoji := if conn_status = 1 then EMOJI_CONNECTED else EMOJI_DISCONNECTED
    let action := if conn_status = 1 then "connected to" else "disconnected from"
    let td := handle_target cfg env my_node
    Except.ok (td.2 ++ [Effect.lookup their_node,
      Effect.send (normal_status env emoji their_node action td.1)])

end AslHooks

namespace AslHooks

/-- Helper: one unfolding step of the scan loop. -/
theorem scan_rows_cons (n : Int) (line : List String) (rest : List (List String)) :
    scan_rows n (line :: rest) =
      if line.isEmpty || startsWithChar (line.headD "") ';' then
        scan_rows n rest
      else
        match pyIntOfString (line.headD "") with
        | none => Except.error "ValueError"
        | some k =>
          if n = k then
            match line with
            | _ :: f1 :: f2 :: f3 :: _ =>
              Except.ok ("(" ++ f1 ++ " " ++ f2 ++ " in " ++ f3 ++ ")")
            | _ => Except.error "IndexError"
          else scan_rows n rest := rfl

/-- Helper: on a successfully opened file, `get_node_info` is the scan result,
with scan-level exceptions mapped to the error placeholder. -/
theorem get_node_info_ok (rows : List (List String)) (n : Int) :
    get_node_info (Except.ok rows) n =
      match scan_rows n rows with
      | Except.ok s => s
      | Except.error _ => "(error reading db)" := by
  unfold get_node_info get_node_info_run
  have h : (Except.ok rows : Except String (List (List String))).bind (scan_rows n)
      = scan_rows n rows := rfl
  rw [h]
  cases scan_rows n rows <;> rfl

/-- Helper: a non-blank, non-comment row whose first field parses to an
integer different from the queried one is passed over by the scan. -/
theorem scan_rows_skip (n k : Int) (f0 : String) (fs : List String)
    (rest : List (List String)) (hk : pyIntOfString f0 = some k) (hne : k ≠ n)
    (hsc : startsWithChar f0 ';' = false) :
    scan_rows n ((f0 :: fs) :: rest) = scan_rows n rest := by
  rw [scan_rows_cons]
  simp [hsc, hk, Ne.symm hne]

/-- C1 counterexample: a line whose first field is not an integer is NOT
skipped — the `int` failure escapes the loop, is caught by the function-level
handler, and the lookup returns `"(error reading db)"`. A file with only such
lines therefore does not yield `"(unknown)"`, and a well-formed matching line
after a malformed one is never reached. -/
theorem c1_malformed_counterexample :
    get_node_info (Except.ok [["abc", "x", "y", "z"]]) 7 ≠ "(unknown)" ∧
    get_node_info (Except.ok [["abc", "x", "y", "z"]]) 7 = "(error reading db)" ∧
    get_node_info (Except.ok [["abc", "x", "y", "z"], ["5", "A", "B", "C"]]) 5
      = "(error reading db)" := by decide

/-- C1 amended: a non-comment row whose integer first field differs from the
queried identifier is passed over and the scan continues (in particular a row
with fewer than 4 fields); but a non-comment row with a non-integer first
field aborts the lookup with the `"(error reading db)"` placeholder (the
`int` failure is caught by the function-level handler, not skipped), as does
a matching row with fewer than 4 fields (index error on the missing
fields). -/
theorem c1_malformed_amended (n k : Int) (f0 : String) (fs : List String)
    (rest : List (List String)) :
    (pyIntOfString f0 = some k → k ≠ n → startsWithChar f0 ';' = false →
      get_node_info (Except.ok ((f0 :: fs) :: rest)) n
        = get_node_info (Except.ok rest) n) ∧
    (startsWithChar f0 ';' = false → pyIntOfString f0 = none →
      get_node_info (Except.ok ((f0 :: fs) :: rest)) n = "(error reading db)") ∧
    (pyIntOfString f0 = some n → startsWithChar f0 ';' = false → fs.length < 3 →
      get_node_info (Except.ok ((f0 :: fs) :: rest)) n = "(error reading db)") := by
  refine ⟨?_, ?_, ?_⟩
  · intro hk hne hsc
    rw [get_node_info_ok, get_node_info_ok, scan_rows_skip n k f0 fs rest hk hne hsc]
  · intro hsc hnone
    rw [get_node_info_ok, scan_rows_cons]
    simp [hsc, hnone]
  · intro hk hsc hlen
    rw [get_node_info_ok, scan_rows_cons]
    rcases fs with _ | ⟨f1, _ | ⟨f2, _ | ⟨f3, tl⟩⟩⟩
    · simp [hsc, hk]
    · simp [hsc, hk]
    · simp [hsc, hk]
    · simp only [List.length_cons] at hlen
      omega

/-- Witness for the C1 amended theorem at concrete rows. -/
theorem c1_malformed_amended_witness :
    get_node_info (Except.ok [["12", "a"], ["7", "A", "B", "C"]]) 7
      = get_node_info (Except.ok [["7", "A", "B", "C"]]) 7 ∧
    get_node_info (Except.ok [["zz", "a", "b", "c"]]) 7 = "(error reading db)" ∧
    get_node_info (Except.ok [["7", "a"]]) 7 = "(error reading db)" :=
  ⟨(c1_malformed_amended 7 12 "12" ["a"] [["7", "A", "B", "C"]]).1
      (by decide) (by decide) (by decide),
   (c1_malformed_amended 7 0 "zz" ["a", "b", "c"] []).2.1 (by decide) (by decide),
   (c1_malformed_amended 7 7 "7" ["a"] []).2.2 (by decide) (by decide) (by decide)⟩

/-- C2: when the remote node is blocked, the processor runs exactly the
blocked path — one control command parameterized by the local and remote
nodes, the two lookups of the blocked message, and exactly one notification
whose message starts with the blocked marker — for every classification,
regardless of the remote node's membership in `my_nodes`/`private_nodes`. -/
theorem c2_blocked_path (cfg : NodeConfig) (env : Env)
    (conn_status my_node their_node : Int)
    (h : their_node ∈ cfg.blocked_nodes) :
    handle_connection_status cfg env conn_status my_node their_node =
      Except.ok [Effect.system (blocked_cmd my_node their_node),
        Effect.lookup their_node, Effect.lookup my_node,
        Effect.send (blocked_status env my_node their_node)] ∧
    (∃ rest, blocked_status env my_node their_node = EMOJI_BLOCKED ++ rest) := by
  constructor
  · unfold handle_connection_status
    rw [if_pos h]
    rfl
  · refine ⟨" Blocked node " ++ toString their_node ++ " " ++
      get_node_info env.dbOpen their_node ++ " was auto disconnected from " ++
      toString my_node ++ " " ++ get_node_info env.dbOpen my_node ++ " at " ++
      env.timeStr, ?_⟩
    simp only [blocked_status, String.append_assoc]

/-- Witness for the C2 theorem: node 9 blocked, event (1, 5, 9), with the
remote node also present in `my_nodes` to exercise the priority of the
blocked check. -/
theorem c2_blocked_path_witness :
    handle_connection_status ⟨[9], [], [9], none⟩ ⟨Except.ok [], "00:00:00"⟩ 1 5 9 =
      Except.ok [Effect.system (blocked_cmd 5 9), Effect.lookup 9, Effect.lookup 5,
        Effect.send (blocked_status ⟨Except.ok [], "00:00:00"⟩ 5 9)] ∧
    (∃ rest, blocked_status ⟨Except.ok [], "00:00:00"⟩ 5 9 = EMOJI_BLOCKED ++ rest) :=
  c2_blocked_path ⟨[9], [], [9], none⟩ ⟨Except.ok [], "00:00:00"⟩ 1 5 9 (by decide)

/-- C3: when the remote node is in `my_nodes` or `private_nodes` and not
blocked, the processor returns with an empty effect trace: no notification,
no control command, no lookup. -/
theorem c3_suppression_path (cfg : NodeConfig) (env : Env)
    (conn_status my_node their_node : Int)
    (h1 : their_node ∉ cfg.blocked_nodes)
    (h2 : their_node ∈ cfg.my_nodes ∨ their_node ∈ cfg.private_nodes) :
    handle_connection_status cfg env conn_status my_node their_node =
      Except.ok [] := by
  unfold handle_connection_status
  rw [if_neg h1, if_pos h2]

/-- Witness for the C3 theorem: remote node 7 in `my_nodes`, not blocked. -/
theorem c3_suppression_path_witness :
    handle_connection_status ⟨[7], [], [], none⟩ ⟨Except.ok [], "00:00:00"⟩ 1 5 7 =
      Except.ok [] :=
  c3_suppression_path ⟨[7], [], [], none⟩ ⟨Except.ok [], "00:00:00"⟩ 1 5 7
    (by decide) (Or.inl (by decide))

/-- C4 counterexample: with classification my=[500], private=[], blocked=[]
and event (status=0, local=500, remote=999), the processor does NOT send
zero notifications — the suppression check tests the remote node (999),
which is in none of the lists, so the normal path runs. -/
theorem c4_zero_notifications_counterexample :
    ¬ (sent_messages (handle_connection_status ⟨[500], [], [], none⟩
      ⟨Except.ok [], "12:00:00"⟩ 0 500 999)).length = 0 := by decide

/-- C4 amended: in that scenario exactly one notification is sent (the
disconnect message of the normal path), for every lookup-file state and
wall-clock time; membership is tested on the remote node only. -/
theorem c4_one_notification_amended (db : Except String (List (List String)))
    (t : String) :
    (sent_messages (handle_connection_status ⟨[500], [], [], none⟩ ⟨db, t⟩
      0 500 999)).length = 1 := by
  simp [handle_connection_status, handle_target, sent_messages]

/-- C5: on the two-line lookup file `100|W1AW|Hiram|Newington` /
`;comment|x|y|z`, looking up 100 yields the formatted display string and
looking up 999 scans past the comment line and yields the unknown
placeholder. -/
theorem c5_lookup_scenario :
    get_node_info (Except.ok [parse_line '|' "100|W1AW|Hiram|Newington",
      parse_line '|' ";comment|x|y|z"]) 100 = "(W1AW Hiram in Newington)" ∧
    get_node_info (Except.ok [parse_line '|' "100|W1AW|Hiram|Newington",
      parse_line '|' ";comment|x|y|z"]) 999 = "(unknown)" := by decide

/-- C6: on the normal path with the local node equal to the configured
Echolink node, the trace contains exactly one lookup — for the remote node —
and the composed message contains the literal `Echolink (<id>)` substring. -/
theorem c6_echolink_display (cfg : NodeConfig) (env : Env)
    (conn_status my_node their_node : Int)
    (h1 : their_node ∉ cfg.blocked_nodes) (h2 : their_node ∉ cfg.my_nodes)
    (h3 : their_node ∉ cfg.private_nodes) (h4 : cfg.echolink = some my_node) :
    ∃ msg : String,
      handle_connection_status cfg env conn_status my_node their_node =
        Except.ok [Effect.lookup their_node, Effect.send msg] ∧
      ∃ p q, msg = p ++ ("Echolink (" ++ toString my_node ++ ")") ++ q := by
  refine ⟨normal_status env
      (if conn_status = 1 then EMOJI_CONNECTED else EMOJI_DISCONNECTED) their_node
      (if conn_status = 1 then "connected to" else "disconnected from")
      ("Echolink (" ++ toString my_node ++ ")"), ?_, ?_⟩
  · simp [handle_connection_status, handle_target, h1, h2, h3, h4]
  · refine ⟨(if conn_status = 1 then EMOJI_CONNECTED else EMOJI_DISCONNECTED) ++
      " Node " ++ toString their_node ++ " " ++ get_node_info env.dbOpen their_node ++
      " " ++ (if conn_status = 1 then "connected to" else "disconnected from") ++ " ",
      " at " ++ env.timeStr, ?_⟩
    simp only [normal_status, String.append_assoc]

/-- Witness for the C6 theorem: Echolink node 4, event (1, 4, 8). -/
theorem c6_echolink_display_witness :
    ∃ msg : String,
      handle_connection_status ⟨[], [], [], some 4⟩ ⟨Except.ok [], "00:00:00"⟩ 1 4 8 =
        Except.ok [Effect.lookup 8, Effect.send msg] ∧
      ∃ p q, msg = p ++ ("Echolink (" ++ toString (4 : Int) ++ ")") ++ q :=
  c6_echolink_display ⟨[], [], [], some 4⟩ ⟨Except.ok [], "00:00:00"⟩ 1 4 8
    (by decide) (by decide) (by decide) rfl

/-- C7: the processor never raises — for every classification, environment
(including a lookup file that fails to open) and event its run ends in
`Except.ok`; the notifier's caller cannot observe a transport failure (the
attempted requests are identical whether the transport raises or responds);
and a failed file open surfaces only as the error placeholder string. -/
theorem c7_never_raises (cfg : NodeConfig) (env : Env)
    (conn_status my_node their_node : Int) (pcfg : PushoverConfig)
    (e : String) (k : Nat) (msg : String) (n : Int) :
    (∃ tr, handle_connection_status cfg env conn_status my_node their_node =
      Except.ok tr) ∧
    ((PushoverNotifier.send pcfg (Except.error e) msg).1 =
      (PushoverNotifier.send pcfg (Except.ok k) msg).1) ∧
    get_node_info (Except.error e) n = "(error reading db)" := by
  refine ⟨?_, ?_, rfl⟩
  · unfold handle_connection_status
    split_ifs <;> exact ⟨_, rfl⟩
  · unfold PushoverNotifier.send
    split_ifs <;> rfl

/-- C8: when the lookup file cannot be opened or read, `get_node_info`
catches the failure, logs it, and returns the `"(error reading db)"`
placeholder. -/
theorem c8_db_open_failure (e : String) (n : Int) :
    get_node_info_run (Except.error e) n =
      ("(error reading db)", ["Error reading node database: " ++ e]) := rfl

/-- C9: a disabled notifier returns immediately: no network request is
attempted and nothing is logged, for every message and transport state. -/
theorem c9_disabled_no_network (config : PushoverConfig)
    (net : Except String Nat) (message : String)
    (h : config.enabled = false) :
    PushoverNotifier.send config net message = ([], []) := by
  unfold PushoverNotifier.send
  simp [h]

/-- Witness for the C9 theorem at a concrete disabled configuration. -/
theorem c9_disabled_no_network_witness :
    PushoverNotifier.send ⟨false, "token", "key"⟩ (Except.ok 200) "hello"
      = ([], []) :=
  c9_disabled_no_network ⟨false, "token", "key"⟩ (Except.ok 200) "hello" rfl

/-- C10: on the normal path, every connection-status value other than 1
composes the message with the disconnected marker and the action phrase
`disconnected from` (both occur literally in the sent message), and exactly
the value 1 composes it with the connected marker and `connected to`. -/
theorem c10_status_dichotomy (cfg : NodeConfig) (env : Env)
    (conn_status my_node their_node : Int)
    (h1 : their_node ∉ cfg.blocked_nodes) (h2 : their_node ∉ cfg.my_nodes)
    (h3 : their_node ∉ cfg.private_nodes) :
    (conn_status ≠ 1 →
      handle_connection_status cfg env conn_status my_node their_node =
        Except.ok ((handle_target cfg env my_node).2 ++ [Effect.lookup their_node,
          Effect.send (normal_status env EMOJI_DISCONNECTED their_node
            "disconnected from" (handle_target cfg env my_node).1)]) ∧
      (∃ p q, normal_status env EMOJI_DISCONNECTED their_node "disconnected from"
          (handle_target cfg env my_node).1 = p ++ "disconnected from" ++ q) ∧
      (∃ r, normal_status env EMOJI_DISCONNECTED their_node "disconnected from"
          (handle_target cfg env my_node).1 = EMOJI_DISCONNECTED ++ r)) ∧
    (conn_status = 1 →
      handle_connection_status cfg env conn_status my_node their_node =
        Except.ok ((handle_target cfg env my_node).2 ++ [Effect.lookup their_node,
          Effect.send (normal_status env EMOJI_CONNECTED their_node
            "connected to" (handle_target cfg env my_node).1)])) := by
  constructor
  · intro hs
    refine ⟨?_, ?_, ?_⟩
    · simp [handle_connection_status, h1, h2, h3, hs]
    · refine ⟨EMOJI_DISCONNECTED ++ " Node " ++ toString their_node ++ " " ++
        get_node_info env.dbOpen their_node ++ " ", " " ++
        (handle_target cfg env my_node).1 ++ " at " ++ env.timeStr, ?_⟩
      simp only [normal_status, String.append_assoc]
    · refine ⟨" Node " ++ toString their_node ++ " " ++
        get_node_info env.dbOpen their_node ++ " " ++ "disconnected from" ++ " " ++
        (handle_target cfg env my_node).1 ++ " at " ++ env.timeStr, ?_⟩
      simp only [normal_status, String.append_assoc]
  · intro hs
    simp [handle_connection_status, h1, h2, h3, hs]

/-- Witness for the C10 theorem at status value 2, outside the documented
invocation surface. -/
theorem c10_status_dichotomy_witness :
    handle_connection_status ⟨[], [], [], none⟩ ⟨Except.ok [], "00:00:00"⟩ 2 5 6 =
      Except.ok ((handle_target ⟨[], [], [], none⟩ ⟨Except.ok [], "00:00:00"⟩ 5).2 ++
        [Effect.lookup 6, Effect.send (normal_status ⟨Except.ok [], "00:00:00"⟩
          EMOJI_DISCONNECTED 6 "disconnected from"
          (handle_target ⟨[], [], [], none⟩ ⟨Except.ok [], "00:00:00"⟩ 5).1)]) :=
  (((c10_status_dichotomy ⟨[], [], [], none⟩ ⟨Except.ok [], "00:00:00"⟩ 2 5 6
    (by decide) (by decide) (by decide)).1) (by decide)).1

end AslHooks
